import Mathlib

/-!
Verification of the shop-detective repository
(src/python-shop-detector/detect_shop.py and server.py).

The Python strings in play are ASCII, so a string is modelled as a
`List Char`; Python `str.lower` is `Char.toLower` mapped over the list,
Python `str.strip` drops ASCII whitespace from both ends, and Python's
substring test `a in b` is list infix (`<:+:`).  Wall-clock times
(`time.time()` floats) are modelled as rationals.
-/

namespace ShopDetective

/-- Strings of the Python program, as lists of characters. -/
abbrev Str := List Char

/-- Characters of a Lean string literal, to write Python string constants. -/
def strOf (s : String) : Str := s.data

/-- Python `str.strip` whitespace predicate, restricted to the ASCII
whitespace characters (space, tab, newline, carriage return, vertical
tab, form feed). -/
def pyIsSpace (c : Char) : Bool :=
  c = ' ' || c = '\t' || c = '\n' || c = '\r' || c = '\x0b' || c = '\x0c'

/-- Python `s.strip()`: drop whitespace from both ends. -/
def pyStrip (s : Str) : Str :=
  ((s.dropWhile pyIsSpace).reverse.dropWhile pyIsSpace).reverse

/-- Python `s.lower()` on ASCII text. -/
def pyLower (s : Str) : Str := s.map Char.toLower

/-- `contains_shop_word(caption, keywords)` from detect_shop.py lines 97-99
and, identically, server.py lines 64-66:

    low = caption.lower()
    return any(k.strip().lower() in low for k in keywords if k.strip())
-/
def contains_shop_word (caption : Str) (keywords : List Str) : Bool :=
  let low := pyLower caption
  keywords.any fun k => !(pyStrip k).isEmpty && decide (pyLower (pyStrip k) <:+: low)

/-- `DEFAULT_KEYWORDS` from detect_shop.py lines 18-36 (the same list as
server.py lines 11-29). -/
def DEFAULT_KEYWORDS : List Str :=
  [strOf "shop", strOf "store", strOf "market", strOf "supermarket",
   strOf "mall", strOf "boutique", strOf "grocery", strOf "bakery",
   strOf "pharmacy", strOf "bookstore", strOf "butcher", strOf "retail",
   strOf "convenience", strOf "outlet", strOf "storefront", strOf "vendor",
   strOf "deli"]

/-- Lower-casing does not change whether a string is empty. -/
theorem pyLower_eq_nil_iff (s : Str) : pyLower s = [] ↔ s = [] := by
  simp [pyLower]

/-- The matcher returns true exactly when some keyword, trimmed and
lower-cased, is non-empty and a substring of the lower-cased caption. -/
theorem contains_shop_word_iff (c : Str) (ks : List Str) :
    contains_shop_word c ks = true ↔
      ∃ k ∈ ks, pyLower (pyStrip k) ≠ [] ∧ pyLower (pyStrip k) <:+: pyLower c := by
  simp only [contains_shop_word, List.any_eq_true, Bool.and_eq_true,
    Bool.not_eq_true', List.isEmpty_eq_false_iff_exists_mem, decide_eq_true_eq]
  constructor
  · rintro ⟨k, hk, ⟨x, hx⟩, hsub⟩
    refine ⟨k, hk, ?_, hsub⟩
    intro hnil
    rw [pyLower_eq_nil_iff] at hnil
    rw [hnil] at hx
    exact List.not_mem_nil x hx
  · rintro ⟨k, hk, hne, hsub⟩
    refine ⟨k, hk, ?_, hsub⟩
    have hkne : pyStrip k ≠ [] := by
      intro h
      exact hne (by rw [h]; rfl)
    exact List.exists_mem_of_ne_nil _ hkne

/-- The matcher is false on the empty caption. -/
theorem contains_shop_word_nil_caption (ks : List Str) :
    contains_shop_word [] ks = false := by
  rw [Bool.eq_false_iff]
  intro htrue
  rcases (contains_shop_word_iff [] ks).mp htrue with ⟨k, _, hne, hsub⟩
  have : pyLower (pyStrip k) = [] := by
    have h0 : pyLower ([] : Str) = [] := rfl
    rw [h0] at hsub
    rcases hsub with ⟨s, t, hst⟩
    exact (List.append_eq_nil.mp (List.append_eq_nil.mp hst).1).2
  exact hne this

/-- The matcher is false on the empty keyword set. -/
theorem contains_shop_word_nil_keywords (c : Str) :
    contains_shop_word c [] = false := by
  simp [contains_shop_word]

/-- C1: the keyword matcher returns true iff some keyword, after trimming
and lower-casing, is non-empty and is a substring of the lower-cased
caption; it is false on the empty caption and on the empty keyword set. -/
theorem claim_keyword_matcher :
    (∀ (c : Str) (ks : List Str),
        contains_shop_word c ks = true ↔
          ∃ k ∈ ks, pyLower (pyStrip k) ≠ [] ∧ pyLower (pyStrip k) <:+: pyLower c)
    ∧ (∀ ks : List Str, contains_shop_word [] ks = false)
    ∧ (∀ c : Str, contains_shop_word c [] = false) :=
  ⟨contains_shop_word_iff, contains_shop_word_nil_caption,
    contains_shop_word_nil_keywords⟩

/-- Witness for C1: a concrete evaluation through the theorem. -/
theorem claim_keyword_matcher_witness :
    contains_shop_word (strOf "Welcome to our Bakery!") [strOf "bakery"] = true := by
  refine (claim_keyword_matcher.1 _ _).mpr ⟨strOf "bakery", by decide, by decide, ?_⟩
  decide

/-! ## The webcam detection loop (detect_shop.py `main`, lines 188-251)

Wall-clock instants (`time.time()` floats) are rationals.  One pass of the
`while True` body, between the frame read and the window/keyboard handling,
is the function `tick` below.  The call to the BLIP captioner, an external
collaborator, is an input of the tick: either it returns a list of dicts
(each with an optional `generated_text` entry) or it raises. -/

/-- Python `int(x)` applied to a float: truncation toward zero. -/
def pyInt (q : ℚ) : ℤ := if 0 ≤ q then ⌊q⌋ else ⌈q⌉

/-- The elapsed-time comparison used at detect_shop.py lines 210 and 226:
`now - last >= threshold`. -/
def cadenceGate (now last threshold : ℚ) : Bool := decide (now - last ≥ threshold)

/-- The initial value `0.0` of `last_infer` and `last_spoken`
(detect_shop.py lines 194-195): the "never happened" sentinel. -/
def neverSentinel : ℚ := 0

/-- Outcome of the `captioner(img)` call (detect_shop.py line 214): a list
of dicts, each with an optional `generated_text` value, or an exception. -/
inductive CapResult where
  | ok (texts : List (Option Str))
  | err
deriving DecidableEq

/-- The sentinel caption `"<captioning error>"` substituted on a captioner
exception (detect_shop.py line 220). -/
def errorSentinel : Str := strOf "<captioning error>"

/-- The `caption_text` produced by detect_shop.py lines 213-221:
`out[0].get("generated_text", "")` when the call returns a non-empty list,
`""` when it returns an empty list, and the error sentinel on exception. -/
def captionOf : CapResult → Str
  | .ok [] => []
  | .ok (d :: _) => d.getD []
  | .err => errorSentinel

/-- Mutable loop state of detect_shop.py `main`: `last_infer`,
`last_spoken` (lines 194-195) and `caption_text` (line 196). -/
structure LoopState where
  last_infer : ℚ
  last_spoken : ℚ
  caption_text : Str
deriving DecidableEq

/-- The state at loop entry (detect_shop.py lines 194-196). -/
def initState : LoopState := ⟨0, 0, []⟩

/-- On-screen status computed by one tick (detect_shop.py lines 208,
230-235). -/
inductive TickStatus where
  | ready
  | detectedShop
  | detectedCooldown (waitLeft : ℤ)
deriving DecidableEq

/-- Result of one tick: the updated state, the utterances enqueued on the
Speaker during the tick (`speaker.say`), and the status string. -/
structure TickResult where
  state : LoopState
  enqueued : List Str
  status : TickStatus
deriving DecidableEq

/-- One pass of the webcam loop body, detect_shop.py lines 207-235:

    now = time.time()
    status = "READY"
    if now - last_infer >= args.interval:
        ...captioning -> caption_text...
        last_infer = now
        if caption_text and contains_shop_word(caption_text, keywords):
            if now - last_spoken >= args.cooldown:
                speaker.say(args.say); last_spoken = now; status = "DETECTED SHOP"
            else:
                wait_left = int(args.cooldown - (now - last_spoken))
                status = f"DETECTED (cooldown \x7bwait_left\x7ds)"
        else:
            status = "READY"
-/
def tick (interval cooldown : ℚ) (keywords : List Str) (sayPhrase : Str)
    (now : ℚ) (cap : CapResult) (s : LoopState) : TickResult :=
  if cadenceGate now s.last_infer interval then
    let caption := captionOf cap
    let s1 : LoopState := { s with caption_text := caption, last_infer := now }
    if !caption.isEmpty && contains_shop_word caption keywords then
      if cadenceGate now s.last_spoken cooldown then
        { state := { s1 with last_spoken := now },
          enqueued := [sayPhrase], status := .detectedShop }
      else
        { state := s1, enqueued := [],
          status := .detectedCooldown (pyInt (cooldown - (now - s.last_spoken))) }
    else
      { state := s1, enqueued := [], status := .ready }
  else
    { state := s, enqueued := [], status := .ready }

/-- The gate fires exactly when the elapsed time reaches the threshold. -/
theorem cadenceGate_true_iff (now last threshold : ℚ) :
    cadenceGate now last threshold = true ↔ now - last ≥ threshold := by
  simp [cadenceGate]

/-- The gate is off exactly when the elapsed time is below the threshold. -/
theorem cadenceGate_false_iff (now last threshold : ℚ) :
    cadenceGate now last threshold = false ↔ now - last < threshold := by
  simp [cadenceGate]

/-- Tick evaluation: detection with the cooldown satisfied speaks. -/
theorem tick_eq_speak (interval cooldown : ℚ) (keywords : List Str)
    (sayPhrase : Str) (now : ℚ) (cap : CapResult) (s : LoopState)
    (hinf : cadenceGate now s.last_infer interval = true)
    (hdet : (!(captionOf cap).isEmpty
        && contains_shop_word (captionOf cap) keywords) = true)
    (hspk : cadenceGate now s.last_spoken cooldown = true) :
    tick interval cooldown keywords sayPhrase now cap s =
      { state := ⟨now, now, captionOf cap⟩,
        enqueued := [sayPhrase], status := .detectedShop } := by
  simp [tick, hinf, hdet, hspk]

/-- Tick evaluation: detection during the cooldown reports the wait. -/
theorem tick_eq_cooldown (interval cooldown : ℚ) (keywords : List Str)
    (sayPhrase : Str) (now : ℚ) (cap : CapResult) (s : LoopState)
    (hinf : cadenceGate now s.last_infer interval = true)
    (hdet : (!(captionOf cap).isEmpty
        && contains_shop_word (captionOf cap) keywords) = true)
    (hspk : cadenceGate now s.last_spoken cooldown = false) :
    tick interval cooldown keywords sayPhrase now cap s =
      { state := ⟨now, s.last_spoken, captionOf cap⟩,
        enqueued := [],
        status := .detectedCooldown (pyInt (cooldown - (now - s.last_spoken))) } := by
  simp [tick, hinf, hdet, hspk]

/-- Tick evaluation: inference without a detection is a READY tick. -/
theorem tick_eq_nodetect (interval cooldown : ℚ) (keywords : List Str)
    (sayPhrase : Str) (now : ℚ) (cap : CapResult) (s : LoopState)
    (hinf : cadenceGate now s.last_infer interval = true)
    (hdet : (!(captionOf cap).isEmpty
        && contains_shop_word (captionOf cap) keywords) = false) :
    tick interval cooldown keywords sayPhrase now cap s =
      { state := ⟨now, s.last_spoken, captionOf cap⟩,
        enqueued := [], status := .ready } := by
  simp [tick, hinf, hdet]

/-- Tick evaluation: when the inference gate is closed nothing happens. -/
theorem tick_eq_skip (interval cooldown : ℚ) (keywords : List Str)
    (sayPhrase : Str) (now : ℚ) (cap : CapResult) (s : LoopState)
    (hinf : cadenceGate now s.last_infer interval = false) :
    tick interval cooldown keywords sayPhrase now cap s =
      { state := s, enqueued := [], status := .ready } := by
  simp [tick, hinf]

/-- C2: on a tick that runs inference and detects a shop, a detection with
`now - last_spoken < cooldown` enqueues nothing and leaves `last_spoken`
unchanged, while one with `now - last_spoken ≥ cooldown` enqueues exactly
the configured phrase and sets `last_spoken` to `now`. -/
theorem claim_cooldown_suppression (interval cooldown : ℚ) (keywords : List Str)
    (sayPhrase : Str) (now : ℚ) (cap : CapResult) (s : LoopState)
    (hinf : cadenceGate now s.last_infer interval = true)
    (hdet : (!(captionOf cap).isEmpty
        && contains_shop_word (captionOf cap) keywords) = true) :
    (now - s.last_spoken < cooldown →
        (tick interval cooldown keywords sayPhrase now cap s).enqueued = [] ∧
        (tick interval cooldown keywords sayPhrase now cap s).state.last_spoken
          = s.last_spoken)
    ∧ (now - s.last_spoken ≥ cooldown →
        (tick interval cooldown keywords sayPhrase now cap s).enqueued = [sayPhrase] ∧
        (tick interval cooldown keywords sayPhrase now cap s).state.last_spoken
          = now) := by
  constructor
  · intro hlt
    have hspk : cadenceGate now s.last_spoken cooldown = false :=
      (cadenceGate_false_iff _ _ _).mpr hlt
    rw [tick_eq_cooldown interval cooldown keywords sayPhrase now cap s hinf hdet hspk]
    exact ⟨rfl, rfl⟩
  · intro hge
    have hspk : cadenceGate now s.last_spoken cooldown = true :=
      (cadenceGate_true_iff _ _ _).mpr hge
    rw [tick_eq_speak interval cooldown keywords sayPhrase now cap s hinf hdet hspk]
    exact ⟨rfl, rfl⟩

/-- Witness for C2: with cooldown 10 and an utterance last spoken at 20, a
detection at 25 is suppressed and one at 31 speaks. -/
theorem claim_cooldown_suppression_witness :
    ((tick 2 10 DEFAULT_KEYWORDS (strOf "This is a shop") 25
        (.ok [some (strOf "a shop")]) ⟨0, 20, []⟩).enqueued = []
      ∧ (tick 2 10 DEFAULT_KEYWORDS (strOf "This is a shop") 25
        (.ok [some (strOf "a shop")]) ⟨0, 20, []⟩).state.last_spoken = 20)
    ∧ ((tick 2 10 DEFAULT_KEYWORDS (strOf "This is a shop") 31
        (.ok [some (strOf "a shop")]) ⟨0, 20, []⟩).enqueued
          = [strOf "This is a shop"]
      ∧ (tick 2 10 DEFAULT_KEYWORDS (strOf "This is a shop") 31
        (.ok [some (strOf "a shop")]) ⟨0, 20, []⟩).state.last_spoken = 31) := by
  constructor
  · refine (claim_cooldown_suppression 2 10 DEFAULT_KEYWORDS (strOf "This is a shop")
      25 (.ok [some (strOf "a shop")]) ⟨0, 20, []⟩ ?_ ?_).1 ?_
    · rw [cadenceGate_true_iff]; norm_num
    · decide
    · norm_num
  · refine (claim_cooldown_suppression 2 10 DEFAULT_KEYWORDS (strOf "This is a shop")
      31 (.ok [some (strOf "a shop")]) ⟨0, 20, []⟩ ?_ ?_).2 ?_
    · rw [cadenceGate_true_iff]; norm_num
    · decide
    · norm_num

/-- C3 counterexample: the code has no special case for the sentinel.  With
`last` the sentinel (0.0) the decision is not true regardless of the
threshold: at `now = 1`, `threshold = 10` (a threshold ≥ 0) it is false. -/
theorem claim_cadence_gate_counterexample :
    ¬ (∀ (now threshold : ℚ), 0 ≤ threshold →
        cadenceGate now neverSentinel threshold = true) := by
  intro h
  have h1 := h 1 10 (by norm_num)
  rw [cadenceGate_true_iff] at h1
  norm_num [neverSentinel] at h1

/-- C3 amended: every cadence decision is exactly the elapsed-time
comparison `now - last ≥ threshold`; the "never" sentinel is the timestamp
0.0 and both loop timestamps start there, so with the sentinel the decision
is true precisely when `now ≥ threshold` — the first inference and first
utterance are ungated whenever the current clock reading is at least the
threshold (always the case for wall-clock time and the default thresholds),
but not for arbitrary `now`. -/
theorem claim_cadence_gate (now last threshold : ℚ) :
    (cadenceGate now last threshold = true ↔ now - last ≥ threshold)
    ∧ (threshold ≤ now → cadenceGate now neverSentinel threshold = true)
    ∧ initState.last_infer = neverSentinel
    ∧ initState.last_spoken = neverSentinel := by
  refine ⟨cadenceGate_true_iff now last threshold, ?_, rfl, rfl⟩
  intro h
  rw [cadenceGate_true_iff, neverSentinel]
  linarith

/-- Witness for C3: at wall-clock time 1700000000.0 the first inference is
not gated by the default 2-second interval. -/
theorem claim_cadence_gate_witness :
    cadenceGate 1700000000 neverSentinel 2 = true :=
  (claim_cadence_gate 1700000000 neverSentinel 2).2.1 (by norm_num)

/-- C4 counterexample: a captioner failure can advance `last_spoken`.  With
the keyword override `error`, a failure tick at time 100 from the initial
state matches the sentinel caption `"<captioning error>"`, enqueues the
phrase, and moves `last_spoken` from 0 to 100. -/
theorem claim_failure_isolation_counterexample :
    (tick 2 10 [strOf "error"] (strOf "This is a shop") 100 .err
        initState).state.last_spoken ≠ initState.last_spoken
    ∧ (tick 2 10 [strOf "error"] (strOf "This is a shop") 100 .err
        initState).enqueued = [strOf "This is a shop"] := by
  have h := tick_eq_speak 2 10 [strOf "error"] (strOf "This is a shop") 100 .err
      initState (by rw [cadenceGate_true_iff]; norm_num [initState]) (by decide)
      (by rw [cadenceGate_true_iff]; norm_num [initState])
  rw [h]
  exact ⟨by norm_num [initState], rfl⟩

/-- C4 amended: a tick that runs inference sets `last_infer` to `now`
whether the captioner succeeds or raises; a failure substitutes the
sentinel caption, which is then matched like any caption, so `last_spoken`
is unchanged and nothing is enqueued whenever the keyword set does not
match the sentinel (in particular for the default keywords); and the loop
is not terminated — the next tick's inference gate is evaluated from
`last_infer = now` exactly as usual. -/
theorem claim_failure_isolation (interval cooldown : ℚ) (keywords : List Str)
    (sayPhrase : Str) (now now2 : ℚ) (cap : CapResult) (s : LoopState)
    (hinf : cadenceGate now s.last_infer interval = true) :
    ((tick interval cooldown keywords sayPhrase now cap s).state.last_infer = now)
    ∧ (contains_shop_word errorSentinel keywords = false →
        (tick interval cooldown keywords sayPhrase now .err s).state.last_spoken
            = s.last_spoken
        ∧ (tick interval cooldown keywords sayPhrase now .err s).enqueued = [])
    ∧ (cadenceGate now2
          (tick interval cooldown keywords sayPhrase now .err s).state.last_infer
          interval = true
        ↔ now2 - now ≥ interval) := by
  have herr : ∀ cd : ℚ, (tick interval cd keywords sayPhrase now .err s).state.last_infer = now := by
    intro cd
    by_cases hdet : (!(captionOf (.err : CapResult)).isEmpty
        && contains_shop_word (captionOf (.err : CapResult)) keywords) = true
    · by_cases hspk : cadenceGate now s.last_spoken cd = true
      · rw [tick_eq_speak interval cd keywords sayPhrase now .err s hinf hdet hspk]
      · rw [tick_eq_cooldown interval cd keywords sayPhrase now .err s hinf hdet
          (Bool.eq_false_iff.mpr hspk)]
    · rw [tick_eq_nodetect interval cd keywords sayPhrase now .err s hinf
        (Bool.eq_false_iff.mpr hdet)]
  refine ⟨?_, ?_, ?_⟩
  · by_cases hdet : (!(captionOf cap).isEmpty
        && contains_shop_word (captionOf cap) keywords) = true
    · by_cases hspk : cadenceGate now s.last_spoken cooldown = true
      · rw [tick_eq_speak interval cooldown keywords sayPhrase now cap s hinf hdet hspk]
      · rw [tick_eq_cooldown interval cooldown keywords sayPhrase now cap s hinf hdet
          (Bool.eq_false_iff.mpr hspk)]
    · rw [tick_eq_nodetect interval cooldown keywords sayPhrase now cap s hinf
        (Bool.eq_false_iff.mpr hdet)]
  · intro hmatch
    have hdet : (!(captionOf (.err : CapResult)).isEmpty
        && contains_shop_word (captionOf (.err : CapResult)) keywords) = false := by
      simp [captionOf, hmatch]
    rw [tick_eq_nodetect interval cooldown keywords sayPhrase now .err s hinf hdet]
    exact ⟨rfl, rfl⟩
  · rw [herr cooldown]
    exact cadenceGate_true_iff now2 now interval

/-- Witness for C4: a failure tick at time 100 with the default keywords
leaves `last_spoken` at the sentinel, enqueues nothing, and the gate for a
next tick at time 101 compares 101 - 100 to the interval. -/
theorem claim_failure_isolation_witness :
    ((tick 2 10 DEFAULT_KEYWORDS (strOf "This is a shop") 100 .err
        initState).state.last_spoken = 0
      ∧ (tick 2 10 DEFAULT_KEYWORDS (strOf "This is a shop") 100 .err
        initState).enqueued = [])
    ∧ (cadenceGate 101
        (tick 2 10 DEFAULT_KEYWORDS (strOf "This is a shop") 100 .err
          initState).state.last_infer 2 = true ↔ (101 : ℚ) - 100 ≥ 2) := by
  have h := claim_failure_isolation 2 10 DEFAULT_KEYWORDS (strOf "This is a shop")
    100 101 .err initState (by rw [cadenceGate_true_iff]; norm_num [initState])
  exact ⟨h.2.1 (by decide), h.2.2⟩

/-- C5 counterexample: the remaining-cooldown display is `int(...)`,
truncation toward zero, not a ceiling.  With cooldown 10, last spoken at 1
and a detection at 6.5 the remainder is 4.5: the status carries 4 while
the claimed ceiling is 5. -/
theorem claim_cooldown_status_counterexample :
    (tick 2 10 DEFAULT_KEYWORDS (strOf "This is a shop") (13/2)
        (.ok [some (strOf "a shop")]) ⟨0, 1, []⟩).status
      ≠ .detectedCooldown ⌈(10 : ℚ) - ((13/2 : ℚ) - 1)⌉ := by
  have h := tick_eq_cooldown 2 10 DEFAULT_KEYWORDS (strOf "This is a shop") (13/2)
    (.ok [some (strOf "a shop")]) ⟨0, 1, []⟩
    (by rw [cadenceGate_true_iff]; norm_num) (by decide)
    (by rw [cadenceGate_false_iff]; norm_num)
  rw [h]
  have hfloor : pyInt ((10 : ℚ) - ((13/2 : ℚ) - 1)) = 4 := by
    rw [pyInt, if_pos (by norm_num)]
    norm_num
  have hceil : ⌈(10 : ℚ) - ((13/2 : ℚ) - 1)⌉ = 5 := by
    rw [Int.ceil_eq_iff]
    norm_num
  simp only [hceil]
  intro hcontra
  rw [TickStatus.detectedCooldown.injEq] at hcontra
  rw [hfloor] at hcontra
  norm_num at hcontra

/-- C5 amended: on a detection during cooldown the status carries
`int(cooldownSeconds - (now - lastSpokenAt))` — Python truncation toward
zero, which on the positive remaining time is the floor, not the
ceiling. -/
theorem claim_cooldown_status (interval cooldown : ℚ) (keywords : List Str)
    (sayPhrase : Str) (now : ℚ) (cap : CapResult) (s : LoopState)
    (hinf : cadenceGate now s.last_infer interval = true)
    (hdet : (!(captionOf cap).isEmpty
        && contains_shop_word (captionOf cap) keywords) = true)
    (hcd : now - s.last_spoken < cooldown) :
    (tick interval cooldown keywords sayPhrase now cap s).status
      = .detectedCooldown (pyInt (cooldown - (now - s.last_spoken)))
    ∧ (0 ≤ now - s.last_spoken →
        pyInt (cooldown - (now - s.last_spoken))
          = ⌊cooldown - (now - s.last_spoken)⌋) := by
  constructor
  · rw [tick_eq_cooldown interval cooldown keywords sayPhrase now cap s hinf hdet
      ((cadenceGate_false_iff _ _ _).mpr hcd)]
  · intro _
    rw [pyInt, if_pos (by linarith)]

/-- Witness for C5: cooldown 10, last spoken at 2, detection at 8.25: the
status carries int(3.75) = 3 = floor(3.75). -/
theorem claim_cooldown_status_witness :
    (tick 2 10 DEFAULT_KEYWORDS (strOf "This is a shop") (33/4)
        (.ok [some (strOf "a shop")]) ⟨0, 2, []⟩).status
      = .detectedCooldown (pyInt ((10 : ℚ) - ((33/4 : ℚ) - 2)))
    ∧ pyInt ((10 : ℚ) - ((33/4 : ℚ) - 2)) = ⌊(10 : ℚ) - ((33/4 : ℚ) - 2)⌋ := by
  have h := claim_cooldown_status 2 10 DEFAULT_KEYWORDS (strOf "This is a shop")
    (33/4) (.ok [some (strOf "a shop")]) ⟨0, 2, []⟩
    (by rw [cadenceGate_true_iff]; norm_num) (by decide) (by norm_num)
  exact ⟨h.1, h.2 (by norm_num)⟩

/-! ## The Speaker background worker (detect_shop.py lines 39-78)

The worker thread runs

    while not self._stop:
        text = None
        with self._lock:
            if self._queue:
                text = self._queue.pop(0)
        if text:
            try: self._engine.say(text); self._engine.runAndWait()
            except Exception as e: print(...)
        else:
            time.sleep(0.05)

It is modelled as a small-step machine: the program counter records
whether the worker is at the loop-top stop-flag check or holds the value
popped this iteration (`none` when the queue was empty).  The engine calls
made so far are accumulated in `engineCalls`; a call is recorded whether
or not the engine raises, since the exception is caught and the loop goes
on.  Python truthiness makes a popped empty string fall into the sleep
branch.  A state with the flag set and the counter at the loop top is the
halted worker, a fixed point of the step function.  `close()` (lines
73-78) sets the stop flag and issues a best-effort `engine.stop()`, an
external side effect on the Speech Engine that is not a `say`. -/

/-- Program counter of the worker thread. -/
inductive WorkerPC where
  | top
  | popped (text : Option Str)
deriving DecidableEq

/-- State shared between the loop thread and the worker thread: the stop
flag, the pending-utterance list, the worker's position, and the history
of Speech Engine `say` invocations. -/
structure SpeakerState where
  stopFlag : Bool
  queue : List Str
  pc : WorkerPC
  engineCalls : List Str
deriving DecidableEq

/-- One step of the worker thread (detect_shop.py lines 54-67). -/
def workerStep (s : SpeakerState) : SpeakerState :=
  match s.pc with
  | .top =>
      if s.stopFlag then s
      else
        match s.queue with
        | [] => { s with pc := .popped none }
        | t :: rest => { s with queue := rest, pc := .popped (some t) }
  | .popped t =>
      match t with
      | some txt =>
          if txt.isEmpty then { s with pc := .top }
          else { s with pc := .top, engineCalls := s.engineCalls ++ [txt] }
      | none => { s with pc := .top }

/-- Run the worker for a number of steps. -/
def runWorker : ℕ → SpeakerState → SpeakerState
  | 0, s => s
  | n + 1, s => runWorker n (workerStep s)

/-- `Speaker.say` (lines 69-71): append to the tail of the queue. -/
def speakerSay (text : Str) (s : SpeakerState) : SpeakerState :=
  { s with queue := s.queue ++ [text] }

/-- `Speaker.close` (lines 73-78): set the stop flag (the accompanying
`engine.stop()` is an external request to the Speech Engine). -/
def speakerClose (s : SpeakerState) : SpeakerState :=
  { s with stopFlag := true }

/-- A halted worker is a fixed point of the step function. -/
theorem workerStep_halted (s : SpeakerState) (hstop : s.stopFlag = true)
    (hpc : s.pc = .top) : workerStep s = s := by
  rcases s with ⟨st, q, pc, ec⟩
  simp only at hstop hpc
  subst hstop hpc
  rfl

/-- C6 counterexample: it is not true that from every state with the stop
flag set the worker makes no further engine call.  If `close()` lands
while the worker already holds a popped utterance, that utterance is still
spoken. -/
theorem claim_queue_close_counterexample :
    ¬ (∀ (s : SpeakerState), s.stopFlag = true →
        ∀ n, (runWorker n s).engineCalls = s.engineCalls) := by
  intro h
  have h1 := h ⟨true, [], .popped (some (strOf "A")), []⟩ rfl 1
  rw [show runWorker 1 ⟨true, [], .popped (some (strOf "A")), []⟩
      = ⟨true, [], .top, [strOf "A"]⟩ from rfl] at h1
  simp at h1

/-- C6 amended: once the stop flag is set and the worker is back at its
loop-top check it halts for good — no further Speech Engine invocation
occurs even if utterances remain pending in the queue — and `close()` is
idempotent.  The one exception the code allows: if the flag is set while
the worker already holds a dequeued non-empty utterance, exactly that
utterance is still spoken, after which the worker is halted. -/
theorem claim_queue_close (s : SpeakerState) (txt : Str) :
    (s.stopFlag = true → s.pc = .top → ∀ n, runWorker n s = s)
    ∧ speakerClose (speakerClose s) = speakerClose s
    ∧ (speakerClose s).stopFlag = true
    ∧ (s.stopFlag = true → s.pc = .popped (some txt) → txt ≠ [] →
        (workerStep s).engineCalls = s.engineCalls ++ [txt]
        ∧ ∀ n, runWorker n (workerStep s) = workerStep s) := by
  have hhalt : ∀ (u : SpeakerState), u.stopFlag = true → u.pc = .top →
      ∀ n, runWorker n u = u := by
    intro u hstop hpc n
    induction n with
    | zero => rfl
    | succ m ih =>
        show runWorker m (workerStep u) = u
        rw [workerStep_halted u hstop hpc]
        exact ih
  refine ⟨hhalt s, rfl, rfl, ?_⟩
  intro hstop hpc hne
  have hstep : workerStep s
      = { s with pc := .top, engineCalls := s.engineCalls ++ [txt] } := by
    rcases s with ⟨st, q, pc, ec⟩
    simp only at hstop hpc
    subst hstop hpc
    simp only [workerStep]
    rw [if_neg]
    simp only [List.isEmpty_eq_true]
    exact hne
  refine ⟨by rw [hstep], ?_⟩
  apply hhalt
  · rw [hstep]
    exact hstop
  · rw [hstep]

/-- Witness for C6: a closed worker with two pending utterances stays put
for five steps, and closing twice equals closing once; a worker closed
while holding "A" speaks exactly "A" and then halts. -/
theorem claim_queue_close_witness :
    (runWorker 5 ⟨true, [strOf "A", strOf "B"], .top, []⟩
        = ⟨true, [strOf "A", strOf "B"], .top, []⟩)
    ∧ ((workerStep ⟨true, [strOf "B"], .popped (some (strOf "A")), []⟩).engineCalls
        = [strOf "A"]
      ∧ ∀ n, runWorker n (workerStep ⟨true, [strOf "B"], .popped (some (strOf "A")), []⟩)
          = workerStep ⟨true, [strOf "B"], .popped (some (strOf "A")), []⟩) := by
  constructor
  · exact (claim_queue_close ⟨true, [strOf "A", strOf "B"], .top, []⟩ []).1 rfl rfl 5
  · have h := (claim_queue_close ⟨true, [strOf "B"], .popped (some (strOf "A")), []⟩
      (strOf "A")).2.2.2 rfl rfl (by decide)
    exact ⟨by rw [h.1]; rfl, h.2⟩

/-! ## Startup and exit of `main` (detect_shop.py lines 152-157, 189-251)

`main` returns normally on every path: camera-open failure and image-read
failure are handled by `print(...)` followed by a plain `return`, and the
webcam loop leaves the `while True` only through `break` (failed frame
read, or the `q` key) into the `finally` cleanup.  A Python process whose
`main` returns without raising exits with status 0, so every modelled
outcome carries exit code 0. -/

/-- Outcome of `main`'s startup check for a frame source. -/
structure StartupResult where
  exitCode : ℕ
  errorPrinted : Bool
  enteredLoop : Bool
deriving DecidableEq

/-- detect_shop.py lines 189-192: `cap = cv2.VideoCapture(...)`; when
`cap.isOpened()` is false, print `[Error] Could not open camera ...` and
`return` (so the interpreter exits with status 0); otherwise fall through
into the webcam loop. -/
def webcamStartup (cameraOpened : Bool) : StartupResult :=
  if cameraOpened then ⟨0, false, true⟩ else ⟨0, true, false⟩

/-- detect_shop.py lines 152-157, single-image mode: when `cv2.imread`
returns None, print `[Error] Could not read image ...`, close the speaker
and `return` (exit status 0); otherwise proceed to the one-shot
evaluation. -/
def imageModeStartup (imageReadOk : Bool) : StartupResult :=
  if imageReadOk then ⟨0, false, true⟩ else ⟨0, true, false⟩

/-- Per-iteration inputs of the webcam loop: whether `cap.read()`
succeeded, the clock reading, the captioner outcome, and whether the
window reported the `q` key this pass. -/
structure TickInput where
  frameOk : Bool
  now : ℚ
  cap : CapResult
  quitKey : Bool
deriving DecidableEq

/-- Why the webcam loop ended (detect_shop.py lines 202-205 and 241-242). -/
inductive ExitReason where
  | endOfStream
  | userQuit
deriving DecidableEq

/-- The webcam `while True` loop over a finite input trace: each pass
reads a frame (breaking when the read fails), runs `tick`, then breaks
when the `q` key was pressed.  Returns `none` when the trace ran out with
the loop still live, else the exit reason, with the final loop state. -/
def runLoop (interval cooldown : ℚ) (keywords : List Str) (sayPhrase : Str) :
    List TickInput → LoopState → Option ExitReason × LoopState
  | [], s => (none, s)
  | i :: rest, s =>
      if i.frameOk then
        let r := tick interval cooldown keywords sayPhrase i.now i.cap s
        if i.quitKey then (some .userQuit, r.state)
        else runLoop interval cooldown keywords sayPhrase rest r.state
      else (some .endOfStream, s)

/-- C7 counterexample: when the camera cannot be opened the process does
not terminate with a non-zero exit status — `main` prints the error and
returns, exiting with status 0. -/
theorem claim_exit_status_counterexample :
    ¬ ((webcamStartup false).exitCode ≠ 0) := by
  intro h
  exact h rfl

/-- C7 amended: if the Frame Source cannot be opened at startup, `main`
prints an error and returns without entering the loop, so the process
exits with status 0 (not an error status); the same holds for an
unreadable image in single-image mode; and once entered, the loop
terminates exactly when some pass sees a failed frame read (end-of-stream)
or the user's quit key. -/
theorem claim_exit_status (interval cooldown : ℚ) (keywords : List Str)
    (sayPhrase : Str) (inputs : List TickInput) (s : LoopState) :
    webcamStartup false = ⟨0, true, false⟩
    ∧ webcamStartup true = ⟨0, false, true⟩
    ∧ imageModeStartup false = ⟨0, true, false⟩
    ∧ ((runLoop interval cooldown keywords sayPhrase inputs s).1 ≠ none ↔
        ∃ i ∈ inputs, i.frameOk = false ∨ i.quitKey = true) := by
  refine ⟨rfl, rfl, rfl, ?_⟩
  induction inputs generalizing s with
  | nil => simp [runLoop]
  | cons i rest ih =>
      by_cases hf : i.frameOk = true
      · by_cases hq : i.quitKey = true
        · simp [runLoop, hf, hq]
        · have hq2 : i.quitKey = false := Bool.eq_false_iff.mpr hq
          simp [runLoop, hf, hq2, ih]
      · have hf2 : i.frameOk = false := Bool.eq_false_iff.mpr hf
        simp [runLoop, hf2]

/-- Witness for C7: a trace whose second pass fails the frame read makes
the loop exit, while camera-open failure itself exits the process with
status 0. -/
theorem claim_exit_status_witness :
    (webcamStartup false).exitCode = 0
    ∧ (runLoop 2 10 DEFAULT_KEYWORDS (strOf "This is a shop")
        [⟨true, 100, .ok [], false⟩, ⟨false, 101, .ok [], false⟩]
        initState).1 ≠ none := by
  have h := claim_exit_status 2 10 DEFAULT_KEYWORDS (strOf "This is a shop")
    [⟨true, 100, .ok [], false⟩, ⟨false, 101, .ok [], false⟩] initState
  refine ⟨by rw [h.1], ?_⟩
  exact h.2.2.2.mpr ⟨⟨false, 101, .ok [], false⟩, by simp, Or.inl rfl⟩

/-! ## The one-shot HTTP endpoint (server.py lines 74-93)

After the image has been decoded (`InvalidInput` is answered with an error
object before this point), the endpoint runs the captioner and builds the
response.  The captioner output is a list of dicts as in the loop; the two
`random` draws are inputs of the model: `random.randint(lo, hi)` is
uniform on `lo..hi` inclusive and is modelled as `lo + r % (hi - lo + 1)`
for a draw `r`, and `random.choice(PUNS)` picks an index into `PUNS`. -/

/-- `PUNS` from server.py lines 31-37. -/
def PUNS : List Str :=
  [strOf "Shelf-aware decision!",
   strOf "Receipt-ing our victory!",
   strOf "This one’s a total checkout.",
   strOf "Aisle be back with more detections.",
   strOf "We’re bagging this as a shop!"]

/-- `random.randint(lo, hi)` applied to a draw `r`: a value in
`lo..hi` inclusive. -/
def pyRandint (lo hi r : ℕ) : ℕ := lo + r % (hi - lo + 1)

/-- `out[0].get("generated_text", "") if isinstance(out, list) and out
else ""` (server.py line 83). -/
def serverCaption : List (Option Str) → Str
  | [] => []
  | d :: _ => d.getD []

/-- The JSON object returned by `/detect` (server.py lines 88-93). -/
structure DetectResponse where
  caption : Str
  is_shop : Bool
  score : ℕ
  pun : Option Str
deriving DecidableEq

/-- The `/detect` endpoint body after image decoding, server.py lines
82-93:

    caption = out[0].get("generated_text", "") if isinstance(out, list) and out else ""
    is_shop = bool(caption) and contains_shop_word(caption, DEFAULT_KEYWORDS)
    score = random.randint(70, 99) if is_shop else random.randint(0, 40)
    pun = random.choice(PUNS) if is_shop else None
-/
def detect (out : List (Option Str)) (rScore rPun : ℕ) : DetectResponse :=
  let caption := serverCaption out
  let is_shop := !caption.isEmpty && contains_shop_word caption DEFAULT_KEYWORDS
  { caption := caption
    is_shop := is_shop
    score := if is_shop then pyRandint 70 99 rScore else pyRandint 0 40 rScore
    pun := if is_shop then some (PUNS.getD (rPun % PUNS.length) []) else none }

/-- `randint` stays within its bounds. -/
theorem pyRandint_mem (lo hi r : ℕ) (h : lo ≤ hi) :
    lo ≤ pyRandint lo hi r ∧ pyRandint lo hi r ≤ hi := by
  unfold pyRandint
  have hmod : r % (hi - lo + 1) < hi - lo + 1 := Nat.mod_lt r (by omega)
  omega

/-- Every value of the range is attained by some draw. -/
theorem pyRandint_attains (lo hi v : ℕ) (h1 : lo ≤ v) (h2 : v ≤ hi) :
    ∃ r, pyRandint lo hi r = v := by
  refine ⟨v - lo, ?_⟩
  unfold pyRandint
  rw [Nat.mod_eq_of_lt (by omega)]
  omega

/-- C8: the caption "a busy outdoor market" makes the one-shot response
report `is_shop = true` and "a quiet forest path" makes it report
`is_shop = false`, whatever the random draws; and `is_shop` is a function
of the caption (with the fixed default keyword list) alone. -/
theorem claim_one_shot_endpoint (out1 out2 : List (Option Str)) (r1 p1 r2 p2 : ℕ) :
    (∀ rScore rPun : ℕ,
        (detect [some (strOf "a busy outdoor market")] rScore rPun).is_shop = true)
    ∧ (∀ rScore rPun : ℕ,
        (detect [some (strOf "a quiet forest path")] rScore rPun).is_shop = false)
    ∧ (serverCaption out1 = serverCaption out2 →
        (detect out1 r1 p1).is_shop = (detect out2 r2 p2).is_shop) := by
  refine ⟨?_, ?_, ?_⟩
  · intro rScore rPun
    rfl
  · intro rScore rPun
    rfl
  · intro hcap
    simp only [detect]
    rw [hcap]

/-- Witness for C8: both table rows at draws 7 and 3, and two captioner
outputs with the same caption and different draws agree on `is_shop`. -/
theorem claim_one_shot_endpoint_witness :
    (detect [some (strOf "a busy outdoor market")] 7 3).is_shop = true
    ∧ (detect [some (strOf "a quiet forest path")] 7 3).is_shop = false
    ∧ (detect [some (strOf "a mall")] 1 2).is_shop
        = (detect [some (strOf "a mall"), none] 8 9).is_shop := by
  have h := claim_one_shot_endpoint [some (strOf "a mall")]
    [some (strOf "a mall"), none] 1 2 8 9
  exact ⟨h.1 7 3, h.2.1 7 3, h.2.2 rfl⟩

/-- C9: the response's score lies in 70..99 when `is_shop` and in 0..40
otherwise, with every value of the respective range attainable by some
draw, so `score ≥ 70` holds exactly when a shop was detected and the score
carries no information beyond the boolean and the draw; and the pun field
is non-null iff `is_shop`. -/
theorem claim_score_and_pun (out : List (Option Str)) (rScore rPun : ℕ) :
    ((detect out rScore rPun).is_shop = true →
        70 ≤ (detect out rScore rPun).score ∧ (detect out rScore rPun).score ≤ 99)
    ∧ ((detect out rScore rPun).is_shop = false →
        (detect out rScore rPun).score ≤ 40)
    ∧ (70 ≤ (detect out rScore rPun).score ↔ (detect out rScore rPun).is_shop = true)
    ∧ ((detect out rScore rPun).pun ≠ none ↔ (detect out rScore rPun).is_shop = true)
    ∧ (∀ out2 rPun2 : _, (detect out2 rScore rPun2).is_shop = (detect out rScore rPun).is_shop →
        (detect out2 rScore rPun2).score = (detect out rScore rPun).score)
    ∧ (∀ v, 70 ≤ v → v ≤ 99 → ∃ r, (detect out r rPun).is_shop = true →
        (detect out r rPun).score = v) := by
  cases hb : (!(serverCaption out).isEmpty
      && contains_shop_word (serverCaption out) DEFAULT_KEYWORDS) with
  | false =>
      have hresp : ∀ r p : ℕ, detect out r p =
          { caption := serverCaption out, is_shop := false,
            score := pyRandint 0 40 r, pun := none } := by
        intro r p
        simp [detect, hb]
      have hsc : pyRandint 0 40 rScore ≤ 40 := (pyRandint_mem 0 40 rScore (by omega)).2
      refine ⟨?_, ?_, ?_, ?_, ?_, ?_⟩
      · intro h; rw [hresp] at h; simp at h
      · intro _; rw [hresp]; exact hsc
      · rw [hresp]
        simp only
        constructor
        · intro h; omega
        · intro h; cases h
      · rw [hresp]
        simp
      · intro out2 rPun2 hsame
        rw [hresp] at hsame ⊢
        cases hb2 : (!(serverCaption out2).isEmpty
            && contains_shop_word (serverCaption out2) DEFAULT_KEYWORDS) with
        | false => simp [detect, hb2]
        | true => simp [detect, hb2] at hsame
      · intro v _ _
        refine ⟨rScore, ?_⟩
        intro h
        rw [hresp] at h
        simp at h
  | true =>
      have hresp : ∀ r p : ℕ, detect out r p =
          { caption := serverCaption out, is_shop := true,
            score := pyRandint 70 99 r,
            pun := some (PUNS.getD (p % PUNS.length) []) } := by
        intro r p
        simp [detect, hb]
      have hsc := pyRandint_mem 70 99 rScore (by omega)
      refine ⟨?_, ?_, ?_, ?_, ?_, ?_⟩
      · intro _; rw [hresp]; exact hsc
      · intro h; rw [hresp] at h; simp at h
      · rw [hresp]
        simp only
        constructor
        · intro _; trivial
        · intro _; exact hsc.1
      · rw [hresp]
        simp
      · intro out2 rPun2 hsame
        rw [hresp] at hsame ⊢
        cases hb2 : (!(serverCaption out2).isEmpty
            && contains_shop_word (serverCaption out2) DEFAULT_KEYWORDS) with
        | false => simp [detect, hb2] at hsame
        | true => simp [detect, hb2]
      · intro v h1 h2
        rcases pyRandint_attains 70 99 v h1 h2 with ⟨r, hr⟩
        refine ⟨r, ?_⟩
        intro _
        rw [hresp]
        exact hr

/-- Witness for C9: on the caption "a mall" with draws 123 and 4 the score
is in 70..99 and the pun is present. -/
theorem claim_score_and_pun_witness :
    (70 ≤ (detect [some (strOf "a mall")] 123 4).score
      ∧ (detect [some (strOf "a mall")] 123 4).score ≤ 99)
    ∧ ((detect [some (strOf "a mall")] 123 4).pun ≠ none) := by
  have h := claim_score_and_pun [some (strOf "a mall")] 123 4
  exact ⟨h.1 (by decide), h.2.2.2.1.mpr (by decide)⟩

/-- C10: a captioner failure substitutes the sentinel `"<captioning
error>"`, which is fed to the matcher like an ordinary caption: whenever
some keyword (trimmed, lower-cased, non-empty) is a substring of the
sentinel and both gates are open, the failure tick enqueues the utterance
and advances `last_spoken`; with the default keyword list the sentinel
never matches. -/
theorem claim_error_sentinel_matching (interval cooldown : ℚ)
    (keywords : List Str) (sayPhrase : Str) (now : ℚ) (s : LoopState)
    (hinf : cadenceGate now s.last_infer interval = true)
    (hkw : ∃ k ∈ keywords,
        pyLower (pyStrip k) ≠ [] ∧ pyLower (pyStrip k) <:+: errorSentinel)
    (hspk : cadenceGate now s.last_spoken cooldown = true) :
    (tick interval cooldown keywords sayPhrase now .err s).enqueued = [sayPhrase]
    ∧ (tick interval cooldown keywords sayPhrase now .err s).state.last_spoken = now
    ∧ contains_shop_word errorSentinel DEFAULT_KEYWORDS = false := by
  have hlow : pyLower errorSentinel = errorSentinel := by decide
  have hmatch : contains_shop_word errorSentinel keywords = true := by
    refine (contains_shop_word_iff _ _).mpr ?_
    rw [hlow]
    exact hkw
  have hdet : (!(captionOf (.err : CapResult)).isEmpty
      && contains_shop_word (captionOf (.err : CapResult)) keywords) = true := by
    simp only [captionOf]
    rw [hmatch]
    decide
  rw [tick_eq_speak interval cooldown keywords sayPhrase now .err s hinf hdet hspk]
  exact ⟨rfl, rfl, by decide⟩

/-- Witness for C10: the keyword override `error` matches the sentinel, so
a failure tick at time 50 from the initial state speaks. -/
theorem claim_error_sentinel_matching_witness :
    (tick 2 10 [strOf "error"] (strOf "This is a shop") 50 .err
        initState).enqueued = [strOf "This is a shop"]
    ∧ (tick 2 10 [strOf "error"] (strOf "This is a shop") 50 .err
        initState).state.last_spoken = 50
    ∧ contains_shop_word errorSentinel DEFAULT_KEYWORDS = false := by
  refine claim_error_sentinel_matching 2 10 [strOf "error"] (strOf "This is a shop")
    50 initState ?_ ⟨strOf "error", by decide, by decide, by decide⟩ ?_
  · rw [cadenceGate_true_iff]
    norm_num [initState]
  · rw [cadenceGate_true_iff]
    norm_num [initState]

end ShopDetective
